import Mathlib

/-!
Shallow embedding of `src/Air_quality.py` (a Streamlit air-quality dashboard).

The core consists of two pieces:

* `load_data` (lines 10-32): seeds numpy's global RNG with 42, draws nine
  columns of length `n` in a fixed order (PM2.5, PM10, NO2, SO2, CO, O3,
  Temperature, Humidity, Wind), attaches a daily date column starting at
  2023-01-01, and derives an AQI column as the weighted sum
  `PM2.5*0.4 + PM10*0.2 + NO2*0.15 + SO2*0.1 + CO*10 + O3*0.05`
  clipped to `[0, 500]`.
* the sidebar "Predict AQI" block (lines 102-127): computes the same weighted
  sum of six user-entered pollutant values, clamps it above by 500 with `min`,
  and buckets the result into a category by an if/elif chain with `<=` tests.

Python floats are modelled by `ℚ` (so floating-point "within 1e-9" statements
become exact equalities), numpy integer draws by `ℤ`.  The numpy global RNG is
modelled as a state holding a word stream together with a cursor;
`np.random.seed 42` replaces that state by the stream a seed-indexed family
`fam` assigns to 42, at cursor 0.  Theorems quantify over `fam`, so they hold
for every deterministic seeded word stream (in particular numpy's Mersenne
Twister).  `np.random.randint lo hi` consumes one word `w` and returns
`lo + w % (hi - lo)` (a value in `[lo, hi)`, numpy's contract), and
`np.random.uniform lo hi` consumes one word and returns
`lo + (hi - lo) * frac w` with `frac w ∈ [0, 1)` (the double in `[0,1)`
numpy derives from the raw words).
-/

/-- The numpy global RNG state: the word stream installed by the last
`np.random.seed` call, and the cursor of the next word to consume. -/
structure NPState where
  stream : Nat → Nat
  pos : Nat

/-- State of the global RNG right after `np.random.seed 42` (line 12), given
the family `fam` mapping a seed to its word stream. -/
def seedState (fam : Nat → Nat → Nat) : NPState :=
  { stream := fam 42, pos := 0 }

/-- Fraction in `[0,1)` derived from a raw word, modelling how numpy turns a
53-bit word into a uniform double in `[0,1)`. -/
def fracOfWord (w : Nat) : ℚ :=
  ((w % 2 ^ 53 : ℕ) : ℚ) / 2 ^ 53

/-- One draw of `np.random.randint lo hi`: consumes a word, returns an integer
in `[lo, hi)`. -/
def randint (lo hi : ℤ) (st : NPState) : ℤ × NPState :=
  (lo + (st.stream st.pos : ℤ) % (hi - lo), { st with pos := st.pos + 1 })

/-- One draw of `np.random.uniform lo hi`: consumes a word, returns a rational
in `[lo, hi)`. -/
def uniformVal (lo hi : ℚ) (st : NPState) : ℚ × NPState :=
  (lo + (hi - lo) * fracOfWord (st.stream st.pos), { st with pos := st.pos + 1 })

/-- An array of `n` draws, consumed in order (models the `size = n` argument
of `np.random.randint` / `np.random.uniform`). -/
def drawArray {α : Type} (draw : NPState → α × NPState) : Nat → NPState → List α × NPState
  | 0, st => ([], st)
  | k + 1, st =>
    ((draw st).1 :: (drawArray draw k (draw st).2).1, (drawArray draw k (draw st).2).2)

/-- One row of the generated dataframe (line 25): the nine drawn fields, the
date (stored as day offset from 2023-01-01) and the derived AQI column. -/
structure Record where
  pm25 : ℤ
  pm10 : ℤ
  no2 : ℤ
  so2 : ℤ
  co : ℚ
  o3 : ℤ
  temperature : ℚ
  humidity : ℚ
  wind : ℚ
  date : ℕ
  aqi : ℚ
deriving DecidableEq, Repr

/-- `clip lo hi` of pandas `Series.clip` (line 31): values below `lo` become
`lo`, values above `hi` become `hi`. -/
def clip (x lo hi : ℚ) : ℚ :=
  min (max x lo) hi

/-- The AQI weighted sum of lines 27-31 applied to one row's raw fields. -/
def rawAQI (a b c d : ℤ) (e : ℚ) (f : ℤ) : ℚ :=
  (a : ℚ) * 0.4 + (b : ℚ) * 0.2 + (c : ℚ) * 0.15 + (d : ℚ) * 0.1 + e * 10 + (f : ℚ) * 0.05

/-- Assemble row `i` of the dataframe from the `i`-th entry of each drawn
column, deriving the AQI column (lines 27-31). -/
def mkRecord (a b c d : ℤ) (e : ℚ) (f : ℤ) (t h w : ℚ) (i : ℕ) : Record :=
  { pm25 := a, pm10 := b, no2 := c, so2 := d, co := e, o3 := f,
    temperature := t, humidity := h, wind := w, date := i,
    aqi := clip (rawAQI a b c d e f) 0 500 }

/-- The nine drawn fields of one row, in column order. -/
abbrev ColTup := ℤ × ℤ × ℤ × ℤ × ℚ × ℤ × ℚ × ℚ × ℚ

/-- Rows of the dataframe from the zipped columns, dates running `i, i+1, …`
(the `pd.date_range` of line 23 joined with the drawn columns row-wise). -/
def buildRows : ℕ → List ColTup → List Record
  | _, [] => []
  | i, (a, b, c, d, e, f, t, h, w) :: rest =>
    mkRecord a b c d e f t h w i :: buildRows (i + 1) rest

/-- Draw the nine columns of `load_data` (lines 14-22) in source order from
the freshly seeded state, returning the zipped columns and the final RNG
state. -/
def genData (fam : Nat → Nat → Nat) (m : ℕ) : List ColTup × NPState :=
  let r1 := drawArray (randint 10 300) m (seedState fam)
  let r2 := drawArray (randint 20 400) m r1.2
  let r3 := drawArray (randint 5 150) m r2.2
  let r4 := drawArray (randint 2 80) m r3.2
  let r5 := drawArray (uniformVal 0.1 5.0) m r4.2
  let r6 := drawArray (randint 10 250) m r5.2
  let r7 := drawArray (uniformVal 10 40) m r6.2
  let r8 := drawArray (uniformVal 20 90) m r7.2
  let r9 := drawArray (uniformVal 0 10) m r8.2
  (r1.1.zip (r2.1.zip (r3.1.zip (r4.1.zip (r5.1.zip (r6.1.zip (r7.1.zip (r8.1.zip r9.1))))))),
    r9.2)

/-- Failure of `load_data`: `np.random.randint(…, size = n)` with negative `n`
raises `ValueError: negative dimensions are not allowed` (the spec's
`InvalidArgument`). -/
inductive GenError where
  | negativeDimensions
deriving DecidableEq, Repr

/-- `load_data` (lines 10-32).  Seeds the global RNG with 42 (so the incoming
global state `g` is discarded), draws the nine columns, and returns the rows
with the derived AQI column together with the final global RNG state.  A
negative `n` makes the first `np.random.randint` call raise before consuming
any word; `n = 0` succeeds with an empty dataframe. -/
def load_data (fam : Nat → Nat → Nat) (n : ℤ) (g : NPState) :
    Except GenError (List Record) × NPState :=
  if n < 0 then
    (Except.error GenError.negativeDimensions, seedState fam)
  else
    (Except.ok (buildRows 0 (genData fam n.toNat).1), (genData fam n.toNat).2)

/-- The raw weighted sum of the sidebar prediction block (lines 104-107). -/
def rawPrediction (pm25 pm10 no2 so2 co o3 : ℚ) : ℚ :=
  pm25 * 0.4 + pm10 * 0.2 + no2 * 0.15 + so2 * 0.1 + co * 10 + o3 * 0.05

/-- `prediction` after the reassignment of line 108: the raw sum clamped
above by 500 with `min`; no lower clamp. -/
def prediction (pm25 pm10 no2 so2 co o3 : ℚ) : ℚ :=
  min (rawPrediction pm25 pm10 no2 so2 co o3) 500

/-- The category labels of the if/elif chain of lines 111-125. -/
inductive AqiCategory where
  | good
  | moderate
  | poor
  | veryPoor
  | severe
deriving DecidableEq, Repr

/-- The if/elif chain of lines 111-125 bucketing a prediction value. -/
def categoryOfAQI (p : ℚ) : AqiCategory :=
  if p ≤ 50 then AqiCategory.good
  else if p ≤ 100 then AqiCategory.moderate
  else if p ≤ 200 then AqiCategory.poor
  else if p ≤ 300 then AqiCategory.veryPoor
  else AqiCategory.severe

/-- The whole "Predict AQI" button block (lines 102-127): all nine sidebar
inputs are in scope, the result is the clamped prediction and its category.
Temperature, humidity and wind are collected but never used. -/
def predictAQIButton (pm25 pm10 no2 so2 co o3 temp humid wind : ℚ) :
    ℚ × AqiCategory :=
  (prediction pm25 pm10 no2 so2 co o3,
    categoryOfAQI (prediction pm25 pm10 no2 so2 co o3))

/-- The AQI weighted sum read back off a generated row's pollutant fields. -/
def rawOfRecord (r : Record) : ℚ :=
  rawAQI r.pm25 r.pm10 r.no2 r.so2 r.co r.o3

/-- Leap-year rule of the Gregorian calendar (what `pd.date_range` uses). -/
def isLeap (y : ℕ) : Bool :=
  (y % 4 == 0 && y % 100 != 0) || y % 400 == 0

/-- Number of days of year `y`. -/
def daysInYear (y : ℕ) : ℕ :=
  if isLeap y then 366 else 365

/-- Month lengths of year `y`. -/
def monthLengths (y : ℕ) : List ℕ :=
  [31, if isLeap y then 29 else 28, 31, 30, 31, 30, 31, 31, 30, 31, 30, 31]

/-- Find the year containing day offset `d` counted from the start of year
`y`; the first argument is fuel (any value above `d / 365` suffices). -/
def yearFromDayAux : ℕ → ℕ → ℕ → ℕ × ℕ
  | 0, y, d => (y, d)
  | fuel + 1, y, d =>
    if d < daysInYear y then (y, d) else yearFromDayAux fuel (y + 1) (d - daysInYear y)

/-- Find the month containing day offset `d` within a year with the given
month lengths; returns the 1-based month and day. -/
def monthFromDayAux : List ℕ → ℕ → ℕ → ℕ × ℕ
  | [], m, d => (m, d + 1)
  | len :: rest, m, d =>
    if d < len then (m, d + 1) else monthFromDayAux rest (m + 1) (d - len)

/-- Calendar date `(year, month, day)` of the `d`-th entry of
`pd.date_range("2023-01-01", periods, freq="D")` (line 23). -/
def civilFromDay (d : ℕ) : ℕ × ℕ × ℕ :=
  let yr := yearFromDayAux (d + 1) 2023 d
  let md := monthFromDayAux (monthLengths yr.1) 1 yr.2
  (yr.1, md.1, md.2)

/-! ### Helper lemmas about the draw primitives and row assembly -/

lemma randint_fst_bounds (lo hi : ℤ) (h : lo < hi) (st : NPState) :
    lo ≤ (randint lo hi st).1 ∧ (randint lo hi st).1 < hi := by
  have h0 : (0 : ℤ) < hi - lo := by omega
  have h1 := Int.emod_nonneg ((st.stream st.pos : ℤ)) (by omega : hi - lo ≠ 0)
  have h2 := Int.emod_lt_of_pos ((st.stream st.pos : ℤ)) h0
  simp only [randint]
  omega

lemma fracOfWord_nonneg (w : ℕ) : 0 ≤ fracOfWord w := by
  unfold fracOfWord
  positivity

lemma fracOfWord_lt_one (w : ℕ) : fracOfWord w < 1 := by
  unfold fracOfWord
  rw [div_lt_one (by positivity)]
  exact_mod_cast Nat.mod_lt w (by norm_num)

lemma uniformVal_fst_bounds (lo hi : ℚ) (h : lo < hi) (st : NPState) :
    lo ≤ (uniformVal lo hi st).1 ∧ (uniformVal lo hi st).1 < hi := by
  have h1 := fracOfWord_nonneg (st.stream st.pos)
  have h2 := fracOfWord_lt_one (st.stream st.pos)
  simp only [uniformVal]
  constructor
  · nlinarith
  · nlinarith

lemma drawArray_fst_length {α : Type} (draw : NPState → α × NPState) :
    ∀ (n : ℕ) (st : NPState), ((drawArray draw n st).1).length = n := by
  intro n
  induction n with
  | zero => intro st; rfl
  | succ k ih => intro st; simp [drawArray, ih]

lemma drawArray_fst_mem {α : Type} (draw : NPState → α × NPState) (P : α → Prop)
    (hP : ∀ st, P (draw st).1) :
    ∀ (n : ℕ) (st : NPState), ∀ v ∈ (drawArray draw n st).1, P v := by
  intro n
  induction n with
  | zero => intro st v hv; simp [drawArray] at hv
  | succ k ih =>
    intro st v hv
    simp only [drawArray, List.mem_cons] at hv
    rcases hv with hv | hv
    · exact hv ▸ hP st
    · exact ih _ v hv

lemma buildRows_length : ∀ (i : ℕ) (l : List ColTup),
    (buildRows i l).length = l.length := by
  intro i l
  induction l generalizing i with
  | nil => rfl
  | cons tup rest ih =>
    obtain ⟨a, b, c, d, e, f, t, u, w⟩ := tup
    simp [buildRows, ih]

lemma buildRows_map_date : ∀ (i : ℕ) (l : List ColTup),
    (buildRows i l).map Record.date = List.range' i l.length := by
  intro i l
  induction l generalizing i with
  | nil => rfl
  | cons tup rest ih =>
    obtain ⟨a, b, c, d, e, f, t, u, w⟩ := tup
    simp [buildRows, mkRecord, ih, List.range'_succ]

lemma mem_buildRows : ∀ (i : ℕ) (l : List ColTup) (r : Record),
    r ∈ buildRows i l →
    ∃ a b c d e f t u w j,
      (a, b, c, d, e, f, t, u, w) ∈ l ∧ r = mkRecord a b c d e f t u w j := by
  intro i l
  induction l generalizing i with
  | nil => intro r hr; simp [buildRows] at hr
  | cons tup rest ih =>
    obtain ⟨a, b, c, d, e, f, t, u, w⟩ := tup
    intro r hr
    simp only [buildRows, List.mem_cons] at hr
    rcases hr with hr | hr
    · exact ⟨a, b, c, d, e, f, t, u, w, i, by simp, hr⟩
    · obtain ⟨a', b', c', d', e', f', t', u', w', j, hmem, heq⟩ := ih (i + 1) r hr
      exact ⟨a', b', c', d', e', f', t', u', w', j, by simp [hmem], heq⟩

lemma genData_fst_length (fam : Nat → Nat → Nat) (m : ℕ) :
    (genData fam m).1.length = m := by
  simp [genData, List.length_zip, drawArray_fst_length]

lemma genData_fst_mem (fam : Nat → Nat → Nat) (m : ℕ) :
    ∀ a b c d e f t u w, (a, b, c, d, e, f, t, u, w) ∈ (genData fam m).1 →
      (10 ≤ a ∧ a < 300) ∧ (20 ≤ b ∧ b < 400) ∧ (5 ≤ c ∧ c < 150) ∧
      (2 ≤ d ∧ d < 80) ∧ (0.1 ≤ e ∧ e < 5.0) ∧ (10 ≤ f ∧ f < 250) ∧
      (10 ≤ t ∧ t < 40) ∧ (20 ≤ u ∧ u < 90) ∧ (0 ≤ w ∧ w < 10) := by
  intro a b c d e f t u w hmem
  simp only [genData] at hmem
  obtain ⟨ha, hmem⟩ := List.of_mem_zip hmem
  obtain ⟨hb, hmem⟩ := List.of_mem_zip hmem
  obtain ⟨hc, hmem⟩ := List.of_mem_zip hmem
  obtain ⟨hd, hmem⟩ := List.of_mem_zip hmem
  obtain ⟨he, hmem⟩ := List.of_mem_zip hmem
  obtain ⟨hf, hmem⟩ := List.of_mem_zip hmem
  obtain ⟨ht, hmem⟩ := List.of_mem_zip hmem
  obtain ⟨hu, hw⟩ := List.of_mem_zip hmem
  exact ⟨drawArray_fst_mem _ (fun v => 10 ≤ v ∧ v < 300)
      (randint_fst_bounds 10 300 (by norm_num)) m _ a ha,
    drawArray_fst_mem _ (fun v => 20 ≤ v ∧ v < 400)
      (randint_fst_bounds 20 400 (by norm_num)) m _ b hb,
    drawArray_fst_mem _ (fun v => 5 ≤ v ∧ v < 150)
      (randint_fst_bounds 5 150 (by norm_num)) m _ c hc,
    drawArray_fst_mem _ (fun v => 2 ≤ v ∧ v < 80)
      (randint_fst_bounds 2 80 (by norm_num)) m _ d hd,
    drawArray_fst_mem _ (fun v => 0.1 ≤ v ∧ v < 5.0)
      (uniformVal_fst_bounds 0.1 5.0 (by norm_num)) m _ e he,
    drawArray_fst_mem _ (fun v => 10 ≤ v ∧ v < 250)
      (randint_fst_bounds 10 250 (by norm_num)) m _ f hf,
    drawArray_fst_mem _ (fun v => 10 ≤ v ∧ v < 40)
      (uniformVal_fst_bounds 10 40 (by norm_num)) m _ t ht,
    drawArray_fst_mem _ (fun v => 20 ≤ v ∧ v < 90)
      (uniformVal_fst_bounds 20 90 (by norm_num)) m _ u hu,
    drawArray_fst_mem _ (fun v => 0 ≤ v ∧ v < 10)
      (uniformVal_fst_bounds 0 10 (by norm_num)) m _ w hw⟩

lemma load_data_ok_rows (fam : Nat → Nat → Nat) (n : ℤ) (g : NPState)
    (rows : List Record) (hok : (load_data fam n g).1 = Except.ok rows) :
    rows = buildRows 0 (genData fam n.toNat).1 := by
  by_cases hn : n < 0
  · simp [load_data, hn] at hok
  · simp only [load_data, hn, if_false] at hok
    exact (Except.ok.injEq _ _ ▸ hok).symm

lemma categoryOfAQI_iff (p : ℚ) :
    (categoryOfAQI p = AqiCategory.good ↔ p ≤ 50) ∧
    (categoryOfAQI p = AqiCategory.moderate ↔ 50 < p ∧ p ≤ 100) ∧
    (categoryOfAQI p = AqiCategory.poor ↔ 100 < p ∧ p ≤ 200) ∧
    (categoryOfAQI p = AqiCategory.veryPoor ↔ 200 < p ∧ p ≤ 300) ∧
    (categoryOfAQI p = AqiCategory.severe ↔ 300 < p) := by
  unfold categoryOfAQI
  split_ifs with h1 h2 h3 h4 <;>
    refine ⟨?_, ?_, ?_, ?_, ?_⟩ <;>
      simp_all <;>
      first
        | linarith
        | (intro h; linarith)

/-- C2: for all score inputs the returned aqi is exactly
`min(0.4*pm25 + 0.2*pm10 + 0.15*no2 + 0.1*so2 + 10*co + 0.05*o3, 500)`:
only the upper bound is clamped.  With non-negative inputs the result is
non-negative (so the missing lower clamp is harmless there), and a negative
raw sum is returned unclamped (no lower clamp is applied). -/
theorem AQI_C2 :
    (∀ pm25 pm10 no2 so2 co o3 : ℚ,
      prediction pm25 pm10 no2 so2 co o3 =
        min (pm25 * 0.4 + pm10 * 0.2 + no2 * 0.15 + so2 * 0.1 + co * 10 + o3 * 0.05) 500) ∧
    (∀ pm25 pm10 no2 so2 co o3 : ℚ,
      0 ≤ pm25 → 0 ≤ pm10 → 0 ≤ no2 → 0 ≤ so2 → 0 ≤ co → 0 ≤ o3 →
      0 ≤ prediction pm25 pm10 no2 so2 co o3) ∧
    prediction (-10) 0 0 0 0 0 = -4 := by
  refine ⟨fun _ _ _ _ _ _ => rfl, ?_, ?_⟩
  · intro pm25 pm10 no2 so2 co o3 h1 h2 h3 h4 h5 h6
    have hraw : (0 : ℚ) ≤ pm25 * 0.4 + pm10 * 0.2 + no2 * 0.15 + so2 * 0.1 + co * 10 + o3 * 0.05 := by
      nlinarith
    exact le_min hraw (by norm_num)
  · norm_num [prediction, rawPrediction, min_def]

/-- Witness for C2: at the spec's example input the hypotheses hold and the
score is non-negative. -/
theorem AQI_C2_witness : 0 ≤ prediction 50 80 30 20 1 40 :=
  AQI_C2.2.1 50 80 30 20 1 40 (by norm_num) (by norm_num) (by norm_num)
    (by norm_num) (by norm_num) (by norm_num)

/-- C3: the returned category partitions the clamped aqi with right-closed
buckets (boundaries fall in the lower bucket), and the concrete boundary
cases raw=50 → Good, raw=100 → Moderate, raw=300 → VeryPoor, and raw=600 →
aqi=500 with Severe all hold. -/
theorem AQI_C3 :
    (∀ pm25 pm10 no2 so2 co o3 : ℚ,
      (categoryOfAQI (prediction pm25 pm10 no2 so2 co o3) = AqiCategory.good ↔
        prediction pm25 pm10 no2 so2 co o3 ≤ 50) ∧
      (categoryOfAQI (prediction pm25 pm10 no2 so2 co o3) = AqiCategory.moderate ↔
        50 < prediction pm25 pm10 no2 so2 co o3 ∧ prediction pm25 pm10 no2 so2 co o3 ≤ 100) ∧
      (categoryOfAQI (prediction pm25 pm10 no2 so2 co o3) = AqiCategory.poor ↔
        100 < prediction pm25 pm10 no2 so2 co o3 ∧ prediction pm25 pm10 no2 so2 co o3 ≤ 200) ∧
      (categoryOfAQI (prediction pm25 pm10 no2 so2 co o3) = AqiCategory.veryPoor ↔
        200 < prediction pm25 pm10 no2 so2 co o3 ∧ prediction pm25 pm10 no2 so2 co o3 ≤ 300) ∧
      (categoryOfAQI (prediction pm25 pm10 no2 so2 co o3) = AqiCategory.severe ↔
        300 < prediction pm25 pm10 no2 so2 co o3)) ∧
    predictAQIButton 125 0 0 0 0 0 0 0 0 = (50, AqiCategory.good) ∧
    predictAQIButton 250 0 0 0 0 0 0 0 0 = (100, AqiCategory.moderate) ∧
    predictAQIButton 750 0 0 0 0 0 0 0 0 = (300, AqiCategory.veryPoor) ∧
    predictAQIButton 1500 0 0 0 0 0 0 0 0 = (500, AqiCategory.severe) := by
  refine ⟨fun pm25 pm10 no2 so2 co o3 => categoryOfAQI_iff _, ?_, ?_, ?_, ?_⟩ <;>
    norm_num [predictAQIButton, prediction, rawPrediction, categoryOfAQI, min_def]

/-- C5 counterexample: a tuple with a negative pollutant value does not fail;
the score path returns aqi = -0.4 with category Good. -/
theorem AQI_C5_counterexample :
    predictAQIButton (-1) 0 0 0 0 0 25 60 2 = (-0.4, AqiCategory.good) := by
  norm_num [predictAQIButton, prediction, rawPrediction, categoryOfAQI, min_def]

/-- C5 amended: the score path performs no input validation; even when some
pollutant value is negative it returns the usual (clamped sum, category)
pair rather than failing. -/
theorem AQI_C5_amended (pm25 pm10 no2 so2 co o3 temp humid wind : ℚ)
    (hneg : pm25 < 0 ∨ pm10 < 0 ∨ no2 < 0 ∨ so2 < 0 ∨ co < 0 ∨ o3 < 0) :
    predictAQIButton pm25 pm10 no2 so2 co o3 temp humid wind =
      (min (pm25 * 0.4 + pm10 * 0.2 + no2 * 0.15 + so2 * 0.1 + co * 10 + o3 * 0.05) 500,
        categoryOfAQI
          (min (pm25 * 0.4 + pm10 * 0.2 + no2 * 0.15 + so2 * 0.1 + co * 10 + o3 * 0.05) 500)) :=
  rfl

/-- Witness for C5 amended at a concrete negative input. -/
theorem AQI_C5_amended_witness :
    predictAQIButton (-1) 0 0 0 0 0 25 60 2 =
      (min ((-1) * 0.4 + 0 * 0.2 + 0 * 0.15 + 0 * 0.1 + 0 * 10 + 0 * 0.05) 500,
        categoryOfAQI
          (min ((-1) * 0.4 + 0 * 0.2 + 0 * 0.15 + 0 * 0.1 + 0 * 10 + 0 * 0.05) 500)) :=
  AQI_C5_amended (-1) 0 0 0 0 0 25 60 2 (Or.inl (by norm_num))

/-- C6: generation is deterministic.  `load_data` reseeds the global RNG with
42 before drawing, so the incoming global state is irrelevant: two calls with
the same n and the same seeded stream family return identical results (rows
and final RNG state), in particular two calls with n = 200. -/
theorem AQI_C6 (fam : Nat → Nat → Nat) (n : ℤ) (g1 g2 : NPState) :
    load_data fam n g1 = load_data fam n g2 :=
  rfl

/-- C9: AQI never depends on temperature, humidity or wind — neither the
generated AQI column nor the sidebar score changes when only those three
inputs change. -/
theorem AQI_C9 :
    (∀ (a b c d : ℤ) (e : ℚ) (f : ℤ) (t1 u1 w1 t2 u2 w2 : ℚ) (i : ℕ),
      (mkRecord a b c d e f t1 u1 w1 i).aqi = (mkRecord a b c d e f t2 u2 w2 i).aqi) ∧
    (∀ pm25 pm10 no2 so2 co o3 t1 u1 w1 t2 u2 w2 : ℚ,
      predictAQIButton pm25 pm10 no2 so2 co o3 t1 u1 w1 =
        predictAQIButton pm25 pm10 no2 so2 co o3 t2 u2 w2) :=
  ⟨fun _ _ _ _ _ _ _ _ _ _ _ _ _ => rfl, fun _ _ _ _ _ _ _ _ _ _ _ _ => rfl⟩

/-- C1: every generated row's AQI column equals the weighted sum of that
row's own pollutant fields clamped to [0, 500] — exactly in `ℚ`, hence in
particular within the 1e-9 floating-point tolerance. -/
theorem AQI_C1 (fam : Nat → Nat → Nat) (n : ℤ) (g : NPState) (rows : List Record)
    (hok : (load_data fam n g).1 = Except.ok rows) :
    ∀ r ∈ rows,
      r.aqi = clip ((r.pm25 : ℚ) * 0.4 + (r.pm10 : ℚ) * 0.2 + (r.no2 : ℚ) * 0.15 +
        (r.so2 : ℚ) * 0.1 + r.co * 10 + (r.o3 : ℚ) * 0.05) 0 500 := by
  intro r hr
  rw [load_data_ok_rows fam n g rows hok] at hr
  obtain ⟨a, b, c, d, e, f, t, u, w, j, hmem, rfl⟩ := mem_buildRows 0 _ r hr
  rfl

/-- The one-row generation over the all-zero word stream, evaluated. -/
lemma load_data_one_row :
    (load_data (fun _ _ => 0) 1 ⟨fun _ => 0, 0⟩).1 =
      Except.ok [mkRecord 10 20 5 2 0.1 10 10 20 0 0] := by
  norm_num [load_data, genData, drawArray, randint, uniformVal, fracOfWord, seedState,
    buildRows, mkRecord, clip, rawAQI, Record.mk.injEq, min_def, max_def]

/-- Witness for C1 at the concrete one-row generation. -/
theorem AQI_C1_witness :
    (mkRecord 10 20 5 2 0.1 10 10 20 0 0).aqi =
      clip (((mkRecord 10 20 5 2 0.1 10 10 20 0 0).pm25 : ℚ) * 0.4 +
        ((mkRecord 10 20 5 2 0.1 10 10 20 0 0).pm10 : ℚ) * 0.2 +
        ((mkRecord 10 20 5 2 0.1 10 10 20 0 0).no2 : ℚ) * 0.15 +
        ((mkRecord 10 20 5 2 0.1 10 10 20 0 0).so2 : ℚ) * 0.1 +
        (mkRecord 10 20 5 2 0.1 10 10 20 0 0).co * 10 +
        ((mkRecord 10 20 5 2 0.1 10 10 20 0 0).o3 : ℚ) * 0.05) 0 500 :=
  AQI_C1 (fun _ _ => 0) 1 ⟨fun _ => 0, 0⟩ [mkRecord 10 20 5 2 0.1 10 10 20 0 0]
    load_data_one_row _ (List.mem_singleton_self _)

/-- C4 counterexample: generation with n = 0 returns an empty dataset rather
than failing with an error, so "for every n ≤ 0 the generation fails" is
false at n = 0. -/
theorem AQI_C4_counterexample :
    (load_data (fun _ _ => 0) 0 ⟨fun _ => 0, 0⟩).1 = Except.ok [] :=
  rfl

/-- C4 amended: a strictly negative n fails with the InvalidArgument-style
error (numpy's negative-dimensions ValueError), while n = 0 returns an empty
dataset. -/
theorem AQI_C4_amended (fam : Nat → Nat → Nat) (g : NPState) (n : ℤ) (hn : n < 0) :
    (load_data fam n g).1 = Except.error GenError.negativeDimensions ∧
    (load_data fam 0 g).1 = Except.ok [] := by
  exact ⟨by simp [load_data, hn], rfl⟩

/-- Witness for C4 amended at n = -1. -/
theorem AQI_C4_amended_witness :
    (load_data (fun _ _ => 0) (-1) ⟨fun _ => 0, 0⟩).1 =
      Except.error GenError.negativeDimensions ∧
    (load_data (fun _ _ => 0) 0 ⟨fun _ => 0, 0⟩).1 = Except.ok [] :=
  AQI_C4_amended (fun _ _ => 0) ⟨fun _ => 0, 0⟩ (-1) (by norm_num)

/-- C7: generation with n = 200 yields exactly 200 rows whose date offsets
are 0, 1, …, 199 in order (strictly increasing daily dates, no gaps, no
duplicates), and offset 0 is 2023-01-01 while offset 199 is 2023-07-19. -/
theorem AQI_C7 (fam : Nat → Nat → Nat) (g : NPState) :
    ∃ rows : List Record,
      (load_data fam 200 g).1 = Except.ok rows ∧
      rows.length = 200 ∧
      rows.map Record.date = List.range 200 ∧
      (rows.map Record.date).Pairwise (· < ·) ∧
      civilFromDay 0 = (2023, 1, 1) ∧
      civilFromDay 199 = (2023, 7, 19) := by
  refine ⟨buildRows 0 (genData fam 200).1, by norm_num [load_data]; rfl, ?_, ?_, ?_,
    by decide, by decide⟩
  · rw [buildRows_length, genData_fst_length]
  · rw [buildRows_map_date, genData_fst_length, List.range_eq_range']
  · rw [buildRows_map_date, genData_fst_length, ← List.range_eq_range']
    exact List.pairwise_lt_range 200

/-- C8: every generated row's fields lie in their declared domains and the
derived AQI lies in [0, 500]. -/
theorem AQI_C8 (fam : Nat → Nat → Nat) (n : ℤ) (g : NPState) (rows : List Record)
    (hok : (load_data fam n g).1 = Except.ok rows) :
    ∀ r ∈ rows,
      (10 ≤ r.pm25 ∧ r.pm25 < 300) ∧ (20 ≤ r.pm10 ∧ r.pm10 < 400) ∧
      (5 ≤ r.no2 ∧ r.no2 < 150) ∧ (2 ≤ r.so2 ∧ r.so2 < 80) ∧
      (0.1 ≤ r.co ∧ r.co < 5.0) ∧ (10 ≤ r.o3 ∧ r.o3 < 250) ∧
      (10 ≤ r.temperature ∧ r.temperature < 40) ∧
      (20 ≤ r.humidity ∧ r.humidity < 90) ∧
      (0 ≤ r.wind ∧ r.wind < 10) ∧
      (0 ≤ r.aqi ∧ r.aqi ≤ 500) := by
  intro r hr
  rw [load_data_ok_rows fam n g rows hok] at hr
  obtain ⟨a, b, c, d, e, f, t, u, w, j, hmem, rfl⟩ := mem_buildRows 0 _ r hr
  obtain ⟨h1, h2, h3, h4, h5, h6, h7, h8, h9⟩ := genData_fst_mem fam n.toNat a b c d e f t u w hmem
  exact ⟨h1, h2, h3, h4, h5, h6, h7, h8, h9,
    le_min (le_max_right _ 0) (by norm_num), min_le_right _ _⟩

/-- Witness for C8 at the concrete one-row generation. -/
theorem AQI_C8_witness :
    ((10 : ℤ) ≤ 10 ∧ (10 : ℤ) < 300) ∧ ((20 : ℤ) ≤ 20 ∧ (20 : ℤ) < 400) ∧
    ((5 : ℤ) ≤ 5 ∧ (5 : ℤ) < 150) ∧ ((2 : ℤ) ≤ 2 ∧ (2 : ℤ) < 80) ∧
    ((0.1 : ℚ) ≤ 0.1 ∧ (0.1 : ℚ) < 5.0) ∧ ((10 : ℤ) ≤ 10 ∧ (10 : ℤ) < 250) ∧
    ((10 : ℚ) ≤ 10 ∧ (10 : ℚ) < 40) ∧ ((20 : ℚ) ≤ 20 ∧ (20 : ℚ) < 90) ∧
    ((0 : ℚ) ≤ 0 ∧ (0 : ℚ) < 10) ∧
    (0 ≤ clip (rawAQI 10 20 5 2 0.1 10) 0 500 ∧ clip (rawAQI 10 20 5 2 0.1 10) 0 500 ≤ 500) :=
  AQI_C8 (fun _ _ => 0) 1 ⟨fun _ => 0, 0⟩ [mkRecord 10 20 5 2 0.1 10 10 20 0 0]
    load_data_one_row _ (List.mem_singleton_self _)

/-- C10: for every generated row the raw weighted sum lies in [10.45, 292.2),
hence strictly inside (0, 500), so the clip never changes a generated AQI:
the AQI column always equals the unclamped sum. -/
theorem AQI_C10 (fam : Nat → Nat → Nat) (n : ℤ) (g : NPState) (rows : List Record)
    (hok : (load_data fam n g).1 = Except.ok rows) :
    ∀ r ∈ rows,
      10.45 ≤ rawOfRecord r ∧ rawOfRecord r < 292.2 ∧
      0 < rawOfRecord r ∧ rawOfRecord r < 500 ∧
      r.aqi = rawOfRecord r := by
  intro r hr
  rw [load_data_ok_rows fam n g rows hok] at hr
  obtain ⟨a, b, c, d, e, f, t, u, w, j, hmem, rfl⟩ := mem_buildRows 0 _ r hr
  obtain ⟨⟨ha1, ha2⟩, ⟨hb1, hb2⟩, ⟨hc1, hc2⟩, ⟨hd1, hd2⟩, ⟨he1, he2⟩, ⟨hf1, hf2⟩, _, _, _⟩ :=
    genData_fst_mem fam n.toNat a b c d e f t u w hmem
  have ha1' : (10 : ℚ) ≤ (a : ℚ) := by exact_mod_cast ha1
  have ha2' : (a : ℚ) ≤ 299 := by exact_mod_cast (by omega : a ≤ 299)
  have hb1' : (20 : ℚ) ≤ (b : ℚ) := by exact_mod_cast hb1
  have hb2' : (b : ℚ) ≤ 399 := by exact_mod_cast (by omega : b ≤ 399)
  have hc1' : (5 : ℚ) ≤ (c : ℚ) := by exact_mod_cast hc1
  have hc2' : (c : ℚ) ≤ 149 := by exact_mod_cast (by omega : c ≤ 149)
  have hd1' : (2 : ℚ) ≤ (d : ℚ) := by exact_mod_cast hd1
  have hd2' : (d : ℚ) ≤ 79 := by exact_mod_cast (by omega : d ≤ 79)
  have hf1' : (10 : ℚ) ≤ (f : ℚ) := by exact_mod_cast hf1
  have hf2' : (f : ℚ) ≤ 249 := by exact_mod_cast (by omega : f ≤ 249)
  have hlow : 10.45 ≤ rawAQI a b c d e f := by
    unfold rawAQI
    norm_num at he1 ⊢
    linarith
  have hup : rawAQI a b c d e f < 292.2 := by
    unfold rawAQI
    norm_num at he2 ⊢
    linarith
  have hre : rawOfRecord (mkRecord a b c d e f t u w j) = rawAQI a b c d e f := rfl
  rw [hre]
  refine ⟨hlow, hup, by linarith, by linarith, ?_⟩
  show clip (rawAQI a b c d e f) 0 500 = rawAQI a b c d e f
  unfold clip
  rw [max_eq_left (by linarith), min_eq_left (by linarith)]

/-- Witness for C10 at the concrete one-row generation. -/
theorem AQI_C10_witness :
    10.45 ≤ rawOfRecord (mkRecord 10 20 5 2 0.1 10 10 20 0 0) ∧
    rawOfRecord (mkRecord 10 20 5 2 0.1 10 10 20 0 0) < 292.2 ∧
    0 < rawOfRecord (mkRecord 10 20 5 2 0.1 10 10 20 0 0) ∧
    rawOfRecord (mkRecord 10 20 5 2 0.1 10 10 20 0 0) < 500 ∧
    (mkRecord 10 20 5 2 0.1 10 10 20 0 0).aqi =
      rawOfRecord (mkRecord 10 20 5 2 0.1 10 10 20 0 0) :=
  AQI_C10 (fun _ _ => 0) 1 ⟨fun _ => 0, 0⟩ [mkRecord 10 20 5 2 0.1 10 10 20 0 0]
    load_data_one_row _ (List.mem_singleton_self _)
